import Mathlib

/-!
Shallow embedding of the transaction-analytics service
(`app/routers/reports.py`, `app/routers/country_reports.py`,
`app/utils/analytics.py`, `app/utils/data_loader.py`, `app/models.py`).

Modelling conventions:
* SQL decimal amounts and all monetary aggregates are rational numbers.
* `transaction_date` is a day index (a natural number); the SQL `date()`
  truncation is the identity at this granularity.
* Country names are represented by numeric codes (their only uses in the
  source are equality grouping and dictionary lookup, both preserved by an
  injective renaming).
* Endpoint handlers return `Except HttpError` mirroring the
  success / `HTTPException` split of the FastAPI handlers.
* `country_reports.py` never imports `TransactionType`, so a request with a
  type filter other than "all" raises a `NameError` that the blanket
  exception handler turns into a 500 response; `getTransactionsDF` models
  that path explicitly.
-/

namespace TxA

/-- `TransactionStatus` enum from `app/models.py`. -/
inductive TStatus
  | successful
  | failed
deriving DecidableEq

/-- `TransactionType` enum from `app/models.py`. -/
inductive TType
  | payment
  | invoice
deriving DecidableEq

/-- The columns of the `transactions` table used by the reports. -/
structure Transaction where
  id : Nat
  user_id : Nat
  amount : Rat
  status : TStatus
  type : TType
  transaction_date : Nat
deriving DecidableEq

/-- The `status` query parameter after validation: "all", "successful" or "failed". -/
inductive StatusParam
  | all
  | successful
  | failed
deriving DecidableEq

/-- The `type` query parameter after validation: "all", "payment" or "invoice". -/
inductive TypeParam
  | all
  | payment
  | invoice
deriving DecidableEq

/-- The `sort_by` query parameter of the country report: "count", "total" or "avg". -/
inductive SortBy
  | count
  | total
  | avg
deriving DecidableEq

/-- An `HTTPException` carried to the client: status code and detail message. -/
structure HttpError where
  code : Nat
  detail : String
deriving DecidableEq

/-- `Transaction.status == TransactionStatus.SUCCESSFUL`. -/
def isSuccessful (t : Transaction) : Bool :=
  match t.status with
  | .successful => true
  | .failed => false

/-- `Transaction.status == TransactionStatus.FAILED`. -/
def isFailed (t : Transaction) : Bool :=
  match t.status with
  | .successful => false
  | .failed => true

/-- The status-filter predicate appended to the query when `status != "all"`. -/
def statusMatches : StatusParam → TStatus → Bool
  | .all, _ => true
  | .successful, .successful => true
  | .successful, .failed => false
  | .failed, .failed => true
  | .failed, .successful => false

/-- The type-filter predicate appended to the query when `type != "all"`. -/
def typeMatches : TypeParam → TType → Bool
  | .all, _ => true
  | .payment, .payment => true
  | .payment, .invoice => false
  | .invoice, .invoice => true
  | .invoice, .payment => false

/-- `transaction_date >= start AND transaction_date <= end`. -/
def dateInRange (s e : Nat) (t : Transaction) : Bool :=
  decide (s ≤ t.transaction_date) && decide (t.transaction_date ≤ e)

/-- The full conjunctive filter scope of a report request. -/
def matchesFilters (s e : Nat) (st : StatusParam) (ty : TypeParam) (t : Transaction) : Bool :=
  dateInRange s e t && statusMatches st t.status && typeMatches ty t.type

/-- `SUM(amount)` over a list of transactions (`COALESCE(..., 0)` on the empty list). -/
def amountSum (l : List Transaction) : Rat :=
  (l.map (·.amount)).sum

/-- `COALESCE(AVG(x), 0)`: the mean of a list of rationals, `0` when empty. -/
def coalesceAvg (l : List Rat) : Rat :=
  if l.length = 0 then 0 else l.sum / l.length

/-- `MIN(x)` as an optional value (`NULL` on the empty set). -/
def listMin : List Rat → Option Rat
  | [] => none
  | x :: xs => some (xs.foldl min x)

/-- `MAX(x)` as an optional value (`NULL` on the empty set). -/
def listMax : List Rat → Option Rat
  | [] => none
  | x :: xs => some (xs.foldl max x)

/-- Round-half-to-even on integers scaled by 100: the integer nearest `q`,
ties going to the even integer, as Python `round` does. -/
def roundHalfEven (q : Rat) : Int :=
  let f : Int := q.floor
  let r : Rat := q - (f : Rat)
  if r < 1/2 then f
  else if 1/2 < r then f + 1
  else if f % 2 = 0 then f else f + 1

/-- Python `round(q, 2)`. -/
def round2 (q : Rat) : Rat :=
  (roundHalfEven (q * 100) : Rat) / 100

/-! ## `/report/` endpoint (`app/routers/reports.py`) -/

/-- The `metrics` object of a `/report/` response; the optional entries are
present only when their inclusion flag produced them. -/
structure ReportMetrics where
  total_transactions : Nat
  total_amount : Rat
  average_amount : Option Rat
  minimum_amount : Option Rat
  maximum_amount : Option Rat
deriving DecidableEq

/-- One entry of the `daily_breakdown` list of a `/report/` response. -/
structure DailyRow where
  date : Nat
  transaction_count : Nat
  total_amount : Rat
  percent_change : Option Rat
deriving DecidableEq

/-- A `/report/` response: period and filter echo, metrics, optional daily breakdown. -/
structure Report where
  start_date : Nat
  end_date : Nat
  status_filter : StatusParam
  type_filter : TypeParam
  metrics : ReportMetrics
  daily_breakdown : Option (List DailyRow)
deriving DecidableEq

/-- A per-day aggregation group: `GROUP BY date(transaction_date)` with
`COUNT`, `SUM(amount)` and `AVG(amount)`. -/
structure Bucket where
  date : Nat
  count : Nat
  total : Rat
  avg : Rat
deriving DecidableEq

/-- The distinct transaction dates of a row set, ascending (`ORDER BY date`). -/
def sortedDates (rows : List Transaction) : List Nat :=
  List.insertionSort (· ≤ ·) ((rows.map (·.transaction_date)).dedup)

/-- Daily aggregation: one bucket per distinct date, ascending. -/
def bucketsOf (rows : List Transaction) : List Bucket :=
  (sortedDates rows).map (fun d =>
    let g := rows.filter (fun t => t.transaction_date == d)
    { date := d, count := g.length, total := amountSum g,
      avg := coalesceAvg (g.map (·.amount)) })

/-- Filter of `_get_daily_breakdown`: date range, `status == SUCCESSFUL`
always, plus the status and type filters conjoined on top. -/
def breakdownPred (s e : Nat) (st : StatusParam) (ty : TypeParam) (t : Transaction) : Bool :=
  dateInRange s e t && isSuccessful t && statusMatches st t.status && typeMatches ty t.type

/-- Filter of `get_daily_trends` in `app/utils/analytics.py`: the
`status == SUCCESSFUL` conjunct is REPLACED by the status filter when one is
given (`base_filters[2] = ...`). -/
def trendsPred (s e : Nat) (st : StatusParam) (ty : TypeParam) (t : Transaction) : Bool :=
  dateInRange s e t &&
    (match st with
      | .all => isSuccessful t
      | _ => statusMatches st t.status) &&
    typeMatches ty t.type

/-- One step of the `_get_daily_breakdown` loop: percent change versus the
previous day, `None` unless the previous amount exists and is `> 0`. -/
def mkDailyRow (prev : Option Bucket) (b : Bucket) : DailyRow :=
  { date := b.date, transaction_count := b.count, total_amount := b.total,
    percent_change :=
      match prev with
      | none => none
      | some p => if 0 < p.total then some (round2 ((b.total - p.total) / p.total * 100)) else none }

/-- The `_get_daily_breakdown` accumulation loop over the day buckets. -/
def dailyLoop : Option Bucket → List Bucket → List DailyRow
  | _, [] => []
  | prev, b :: bs => mkDailyRow prev b :: dailyLoop (some b) bs

/-- `_get_daily_breakdown(db, start, end, status, type)`. -/
def dailyBreakdown (db : List Transaction) (s e : Nat) (st : StatusParam) (ty : TypeParam) :
    List DailyRow :=
  dailyLoop none (bucketsOf (db.filter (breakdownPred s e st ty)))

/-- `get_transaction_report` (`GET /report/`): date-range validation, basic
metrics, optional metrics guarded by `include_* and total_count > 0`,
optional daily breakdown. -/
def get_transaction_report (db : List Transaction) (s e : Nat)
    (st : StatusParam) (ty : TypeParam)
    (include_avg include_min include_max include_daily_shift : Bool) :
    Except HttpError Report :=
  if e < s then .error { code := 400, detail := "Start date cannot be after end date" }
  else
    let matched := db.filter (matchesFilters s e st ty)
    let succ := matched.filter isSuccessful
    let total_count := matched.length
    let succAmounts := succ.map (·.amount)
    .ok
      { start_date := s, end_date := e, status_filter := st, type_filter := ty,
        metrics :=
          { total_transactions := total_count,
            total_amount := amountSum succ,
            average_amount :=
              if include_avg && decide (0 < total_count) then some (coalesceAvg succAmounts)
              else none,
            minimum_amount :=
              if include_min && decide (0 < total_count) then some ((listMin succAmounts).getD 0)
              else none,
            maximum_amount :=
              if include_max && decide (0 < total_count) then some ((listMax succAmounts).getD 0)
              else none },
        daily_breakdown :=
          if include_daily_shift then some (dailyBreakdown db s e st ty) else none }

/-! ## `TransactionAnalytics` (`app/utils/analytics.py`) -/

/-- The dictionary returned by `get_comprehensive_metrics` (type breakdown
flattened into four fields). -/
structure ComprehensiveMetrics where
  total_transactions : Nat
  total_amount : Rat
  average_amount : Rat
  minimum_amount : Rat
  maximum_amount : Rat
  successful_transactions : Nat
  successful_amount : Rat
  failed_transactions : Nat
  success_rate : Rat
  payment_count : Nat
  payment_amount : Rat
  invoice_count : Nat
  invoice_amount : Rat
deriving DecidableEq

/-- `TransactionAnalytics.get_comprehensive_metrics`: basic aggregates over
the base filter scope, then successful-only, failed-only and per-type
aggregates over the same scope. -/
def get_comprehensive_metrics (db : List Transaction) (s e : Nat)
    (st : StatusParam) (ty : TypeParam) : ComprehensiveMetrics :=
  let base := db.filter (matchesFilters s e st ty)
  let succ := db.filter (fun t => matchesFilters s e st ty t && isSuccessful t)
  let fail := db.filter (fun t => matchesFilters s e st ty t && isFailed t)
  let pay := db.filter (fun t => matchesFilters s e st ty t && typeMatches .payment t.type)
  let inv := db.filter (fun t => matchesFilters s e st ty t && typeMatches .invoice t.type)
  { total_transactions := base.length,
    total_amount := amountSum base,
    average_amount := coalesceAvg (base.map (·.amount)),
    minimum_amount := (listMin (base.map (·.amount))).getD 0,
    maximum_amount := (listMax (base.map (·.amount))).getD 0,
    successful_transactions := succ.length,
    successful_amount := amountSum succ,
    failed_transactions := fail.length,
    success_rate :=
      if 0 < base.length then round2 ((succ.length : Rat) / base.length * 100) else round2 0,
    payment_count := pay.length,
    payment_amount := amountSum pay,
    invoice_count := inv.length,
    invoice_amount := amountSum inv }

/-- One entry of the list returned by `get_daily_trends`. -/
structure TrendRow where
  date : Nat
  transaction_count : Nat
  total_amount : Rat
  average_amount : Rat
  amount_change_percent : Option Rat
  count_change_percent : Option Rat
deriving DecidableEq

/-- One step of the `get_daily_trends` loop: each change field is `None`
unless the corresponding previous value exists and is `> 0`. -/
def mkTrendRow (prev : Option Bucket) (b : Bucket) : TrendRow :=
  { date := b.date, transaction_count := b.count, total_amount := b.total,
    average_amount := b.avg,
    amount_change_percent :=
      match prev with
      | none => none
      | some p => if 0 < p.total then some (round2 ((b.total - p.total) / p.total * 100)) else none,
    count_change_percent :=
      match prev with
      | none => none
      | some p =>
        if 0 < p.count then some (round2 (((b.count : Rat) - (p.count : Rat)) / (p.count : Rat) * 100))
        else none }

/-- The `get_daily_trends` accumulation loop over the day buckets. -/
def trendLoop : Option Bucket → List Bucket → List TrendRow
  | _, [] => []
  | prev, b :: bs => mkTrendRow prev b :: trendLoop (some b) bs

/-- The day buckets that `get_daily_trends` aggregates. -/
def dtBuckets (db : List Transaction) (s e : Nat) (st : StatusParam) (ty : TypeParam) :
    List Bucket :=
  bucketsOf (db.filter (trendsPred s e st ty))

/-- `TransactionAnalytics.get_daily_trends`. -/
def get_daily_trends (db : List Transaction) (s e : Nat) (st : StatusParam) (ty : TypeParam) :
    List TrendRow :=
  trendLoop none (dtBuckets db s e st ty)

/-! ## `/report/by-country` endpoint (`app/routers/country_reports.py`) -/

/-- Python dict built by `dict(zip(df[user_id], df[country]))`: on duplicate
keys the last pair wins. Country names are numeric codes here. -/
def dictLookup (m : List (Nat × Nat)) (k : Nat) : Option Nat :=
  m.foldl (fun acc p => if p.1 = k then some p.2 else acc) none

/-- `transactions_df[country] = transactions_df[user_id].map(user_countries)`. -/
def withCountry (m : List (Nat × Nat)) (rows : List Transaction) :
    List (Transaction × Option Nat) :=
  rows.map (fun t => (t, dictLookup m t.user_id))

/-- `transactions_df.dropna(subset=[country])`. -/
def dropUnmapped (rows : List (Transaction × Option Nat)) : List (Transaction × Nat) :=
  rows.filterMap (fun p => p.2.map (fun c => (p.1, c)))

/-- One entry of the `countries` list of a by-country response. -/
structure CountryRow where
  country : Nat
  transaction_count : Nat
  total_amount : Rat
  average_amount : Rat
  unique_users : Nat
deriving DecidableEq

/-- The distinct country codes of the resolvable rows, ascending, as the
pandas `groupby` (with its default key sort) enumerates groups. -/
def countryNames (rows : List (Transaction × Nat)) : List Nat :=
  List.insertionSort (· ≤ ·) ((rows.map (·.2)).dedup)

/-- `_aggregate_by_country`: per country `{sum, mean, count}` of `amount`
(monetary columns rounded to 2 decimals) and `nunique` of `user_id`. -/
def aggregateByCountry (rows : List (Transaction × Nat)) : List CountryRow :=
  (countryNames rows).map (fun c =>
    let g := (rows.filter (fun p => p.2 == c)).map (·.1)
    { country := c, transaction_count := g.length,
      total_amount := round2 (amountSum g),
      average_amount := round2 (coalesceAvg (g.map (·.amount))),
      unique_users := ((g.map (·.user_id)).dedup).length })

/-- The sort key selected by `sort_by`. -/
def sortKey : SortBy → CountryRow → Rat
  | .count, c => (c.transaction_count : Rat)
  | .total, c => c.total_amount
  | .avg, c => c.average_amount

/-- The descending comparison used by `sorted(..., key=..., reverse=True)`. -/
def keyGE (sb : SortBy) (a b : CountryRow) : Prop :=
  sortKey sb b ≤ sortKey sb a

instance (sb : SortBy) : DecidableRel (keyGE sb) :=
  fun a b => inferInstanceAs (Decidable (sortKey sb b ≤ sortKey sb a))

instance (sb : SortBy) : IsTotal CountryRow (keyGE sb) :=
  ⟨fun a b => (le_total (sortKey sb a) (sortKey sb b)).symm⟩

instance (sb : SortBy) : IsTrans CountryRow (keyGE sb) :=
  ⟨fun _ _ _ h1 h2 => le_trans h2 h1⟩

/-- `_sort_and_filter_countries`: stable descending sort on the chosen key,
then the first `top_n` entries. -/
def sortAndFilterCountries (countries : List CountryRow) (sb : SortBy) (top_n : Nat) :
    List CountryRow :=
  (List.insertionSort (keyGE sb) countries).take top_n

/-- The `overall_stats` object computed from the full resolvable DataFrame. -/
structure OverallStats where
  total_countries_found : Nat
  total_transactions_all : Nat
  total_amount_all : Rat
  average_transaction_all : Rat
deriving DecidableEq

/-- The `summary` object of a by-country response. `none` in an optional
field means the key is absent from the JSON object (the early empty-result
returns emit only the first three keys). -/
structure CountrySummary where
  total_countries : Nat
  total_transactions : Nat
  total_amount : Rat
  average_per_country : Option Rat
  top_performer : Option (Option Nat)
  overall_stats : Option OverallStats
deriving DecidableEq

/-- `_calculate_country_summary(countries, transactions_df)`. -/
def calculateCountrySummary (countries : List CountryRow) (rows : List (Transaction × Nat)) :
    CountrySummary :=
  if countries.isEmpty then
    { total_countries := 0, total_transactions := 0, total_amount := 0,
      average_per_country := some 0, top_performer := some none, overall_stats := none }
  else
    let totalTx := (countries.map (·.transaction_count)).sum
    let totalAmt := (countries.map (·.total_amount)).sum
    { total_countries := countries.length,
      total_transactions := totalTx,
      total_amount := round2 totalAmt,
      average_per_country := some (round2 (totalAmt / (countries.length : Rat))),
      top_performer := some (countries.head?.map (·.country)),
      overall_stats := some
        { total_countries_found := ((rows.map (·.2)).dedup).length,
          total_transactions_all := rows.length,
          total_amount_all := amountSum (rows.map (·.1)),
          average_transaction_all := coalesceAvg ((rows.map (·.1)).map (·.amount)) } }

/-- A `/report/by-country` response. -/
structure CountryReport where
  start_date : Nat
  end_date : Nat
  status_filter : StatusParam
  type_filter : TypeParam
  sort_by : SortBy
  top_n : Nat
  countries : List CountryRow
  summary : CountrySummary
deriving DecidableEq

/-- The early empty-result response (identical at both early returns). -/
def emptyCountryReport (s e : Nat) (st : StatusParam) (ty : TypeParam) (sb : SortBy) (n : Nat) :
    CountryReport :=
  { start_date := s, end_date := e, status_filter := st, type_filter := ty,
    sort_by := sb, top_n := n, countries := [],
    summary :=
      { total_countries := 0, total_transactions := 0, total_amount := 0,
        average_per_country := none, top_performer := none, overall_stats := none } }

/-- The date/status/type filter of `_get_transactions_dataframe`. -/
def dfPred (s e : Nat) (st : StatusParam) (ty : TypeParam) (t : Transaction) : Bool :=
  dateInRange s e t && statusMatches st t.status && typeMatches ty t.type

/-- `_get_transactions_dataframe`. The module never imports
`TransactionType`, so a type filter other than "all" raises a `NameError`
which the blanket handler reports as a 500. -/
def getTransactionsDF (db : List Transaction) (s e : Nat) (st : StatusParam) (ty : TypeParam) :
    Except HttpError (List Transaction) :=
  match ty with
  | .all => .ok (db.filter (dfPred s e st ty))
  | _ => .error { code := 500, detail := "Internal server error: name TransactionType is not defined" }

/-- `get_country_report` (`GET /report/by-country`). -/
def get_country_report (db : List Transaction) (m : List (Nat × Nat)) (s e : Nat)
    (st : StatusParam) (ty : TypeParam) (sb : SortBy) (n : Nat) :
    Except HttpError CountryReport :=
  if e < s then .error { code := 400, detail := "Start date cannot be after end date" }
  else if m.isEmpty then .error { code := 500, detail := "Could not load user-country data" }
  else
    match getTransactionsDF db s e st ty with
    | .error err => .error err
    | .ok df =>
      if df.isEmpty then .ok (emptyCountryReport s e st ty sb n)
      else
        let dropped := dropUnmapped (withCountry m df)
        if dropped.isEmpty then .ok (emptyCountryReport s e st ty sb n)
        else
          let sortedC := sortAndFilterCountries (aggregateByCountry dropped) sb n
          .ok { start_date := s, end_date := e, status_filter := st, type_filter := ty,
                sort_by := sb, top_n := n, countries := sortedC,
                summary := calculateCountrySummary sortedC dropped }

/-- Default of the `status` query parameter of `GET /report/`
(`Query("all", ...)` in `app/routers/reports.py`). -/
def reportDefaultStatus : StatusParam := .all

/-- Default of the `status` query parameter of `GET /report/by-country`
(`Query("successful", ...)` in `app/routers/country_reports.py`). -/
def countryDefaultStatus : StatusParam := .successful

/-- The day buckets that `_get_daily_breakdown` aggregates. -/
def bbBuckets (db : List Transaction) (s e : Nat) (st : StatusParam) (ty : TypeParam) :
    List Bucket :=
  bucketsOf (db.filter (breakdownPred s e st ty))

/-! ## Concrete data sets used by witnesses and counterexamples -/

/-- Scenario A of the spec: u1 pays 100 successfully and 50 failing on day 5,
u2 has a successful 200 invoice on day 6. -/
def dbA : List Transaction :=
  [{ id := 1, user_id := 1, amount := 100, status := .successful, type := .payment,
     transaction_date := 5 },
   { id := 2, user_id := 1, amount := 50, status := .failed, type := .payment,
     transaction_date := 5 },
   { id := 3, user_id := 2, amount := 200, status := .successful, type := .invoice,
     transaction_date := 6 }]

/-- Two successful transactions with a negative day-0 total. -/
def c2db : List Transaction :=
  [{ id := 1, user_id := 1, amount := -10, status := .successful, type := .payment,
     transaction_date := 0 },
   { id := 2, user_id := 1, amount := 5, status := .successful, type := .payment,
     transaction_date := 1 }]

/-- Two successful transactions on consecutive days with positive totals. -/
def c2wdb : List Transaction :=
  [{ id := 1, user_id := 1, amount := 10, status := .successful, type := .payment,
     transaction_date := 0 },
   { id := 2, user_id := 1, amount := 5, status := .successful, type := .payment,
     transaction_date := 1 }]

/-- A single failed transaction. -/
def oneFailedDb : List Transaction :=
  [{ id := 1, user_id := 1, amount := 50, status := .failed, type := .payment,
     transaction_date := 0 }]

/-- A single failed transaction of amount 5 (daily-trends counterexample data). -/
def c4db : List Transaction :=
  [{ id := 1, user_id := 1, amount := 5, status := .failed, type := .payment,
     transaction_date := 0 }]

/-- A country mapping for user 1 only. -/
def c9map : List (Nat × Nat) := [(1, 10)]

/-- Scenario-D-like ranking input: totals 300, 500, 500. -/
def c7rows : List CountryRow :=
  [{ country := 1, transaction_count := 3, total_amount := 300, average_amount := 100,
     unique_users := 1 },
   { country := 2, transaction_count := 1, total_amount := 500, average_amount := 500,
     unique_users := 1 },
   { country := 3, transaction_count := 2, total_amount := 500, average_amount := 250,
     unique_users := 1 }]

/-- Two successful transactions of two users in two countries plus one
transaction of an unmapped user. -/
def c10db : List Transaction :=
  [{ id := 1, user_id := 1, amount := 100, status := .successful, type := .payment,
     transaction_date := 0 },
   { id := 2, user_id := 2, amount := 200, status := .successful, type := .payment,
     transaction_date := 0 },
   { id := 3, user_id := 3, amount := 40, status := .successful, type := .payment,
     transaction_date := 0 }]

/-- Country mapping for `c10db`: users 1 and 2 mapped, user 3 unmapped. -/
def c10map : List (Nat × Nat) := [(1, 10), (2, 20)]

/-! ## General lemmas about the embedded operations -/

theorem length_filter_status_partition (l : List Transaction) (p : Transaction → Bool) :
    (l.filter (fun t => p t && isSuccessful t)).length
      + (l.filter (fun t => p t && isFailed t)).length
      = (l.filter p).length := by
  induction l with
  | nil => simp
  | cons t ts ih =>
    rcases t with ⟨tid, tu, ta, tst, tty, td⟩
    simp only [List.filter_cons]
    cases hp : p ⟨tid, tu, ta, tst, tty, td⟩ <;> cases tst <;>
      simp [isSuccessful, isFailed, hp] at ih ⊢ <;> omega

theorem filter_bool_congr {α : Type} (l : List α) (p q : α → Bool) (h : ∀ a, p a = q a) :
    l.filter p = l.filter q :=
  List.filter_congr (fun a _ => h a)

/-! ## Claim theorems -/

/-- C1: for every report request with a valid date range, the reported
`total_amount` is the sum of `amount` over exactly the transactions in the
active filter scope whose status is successful (failed transactions
contribute nothing), while `total_transactions` counts all matching rows
regardless of status. -/
theorem c1_total_amount_successful_scope (db : List Transaction) (s e : Nat)
    (st : StatusParam) (ty : TypeParam) (ia im ix ids : Bool) (h : s ≤ e) :
    ∃ r : Report, get_transaction_report db s e st ty ia im ix ids = .ok r ∧
      r.metrics.total_transactions = (db.filter (matchesFilters s e st ty)).length ∧
      r.metrics.total_amount
        = amountSum (db.filter (fun t => matchesFilters s e st ty t && isSuccessful t)) := by
  unfold get_transaction_report
  rw [if_neg (by omega)]
  refine ⟨_, rfl, rfl, ?_⟩
  show amountSum ((db.filter (matchesFilters s e st ty)).filter isSuccessful) = _
  rw [List.filter_filter]
  exact congrArg amountSum (filter_bool_congr _ _ _ (fun a => Bool.and_comm _ _))

/-- C1 witness: Scenario A of the spec; three matching transactions, the
failed 50 excluded from the 300 total. -/
theorem c1_witness :
    ∃ r : Report, get_transaction_report dbA 1 31 .all .all false false false false = .ok r ∧
      r.metrics.total_transactions = 3 ∧ r.metrics.total_amount = 300 := by
  obtain ⟨r, hr, h1, h2⟩ :=
    c1_total_amount_successful_scope dbA 1 31 .all .all false false false false (by omega)
  refine ⟨r, hr, ?_, ?_⟩
  · rw [h1]; decide
  · rw [h2]
    have hf : dbA.filter (fun t => matchesFilters 1 31 .all .all t && isSuccessful t)
        = [{ id := 1, user_id := 1, amount := 100, status := .successful, type := .payment,
             transaction_date := 5 },
           { id := 3, user_id := 2, amount := 200, status := .successful, type := .invoice,
             transaction_date := 6 }] := by decide
    rw [hf]
    show ([(100 : Rat), 200]).sum = 300
    norm_num

/-- C5: if the user-to-country mapping is empty or unavailable (the loader
returns an empty dictionary on any failure), every country-report request
with a valid date range fails with the HTTP 500 data-unavailable error
rather than returning a well-formed report. -/
theorem c5_empty_mapping_error (db : List Transaction) (s e : Nat)
    (st : StatusParam) (ty : TypeParam) (sb : SortBy) (n : Nat) (h : s ≤ e) :
    get_country_report db [] s e st ty sb n
      = .error { code := 500, detail := "Could not load user-country data" } := by
  unfold get_country_report
  rw [if_neg (by omega)]
  rfl

/-- C5 witness: the Scenario A data with an empty mapping yields the 500. -/
theorem c5_witness :
    get_country_report dbA [] 1 31 .successful .all .total 10
      = .error { code := 500, detail := "Could not load user-country data" } :=
  c5_empty_mapping_error dbA 1 31 .successful .all .total 10 (by omega)

/-- C8: with status filter "all", the comprehensive metrics satisfy
`successful_transactions + failed_transactions = total_transactions`,
because a status is either successful or failed. -/
theorem c8_status_partition (db : List Transaction) (s e : Nat) (ty : TypeParam) :
    (get_comprehensive_metrics db s e .all ty).successful_transactions
        + (get_comprehensive_metrics db s e .all ty).failed_transactions
      = (get_comprehensive_metrics db s e .all ty).total_transactions := by
  simp only [get_comprehensive_metrics]
  exact length_filter_status_partition db (matchesFilters s e .all ty)

/-- C9: the by-country endpoint defaults its status filter to "successful"
while the main report endpoint defaults to "all"; on the same data and date
range the two defaults aggregate different transaction sets (here: one
failed transaction is counted by the main report but excluded entirely from
the country report). -/
theorem c9_default_status_divergence :
    reportDefaultStatus = .all ∧ countryDefaultStatus = .successful ∧
      reportDefaultStatus ≠ countryDefaultStatus ∧
      (get_transaction_report oneFailedDb 0 0 reportDefaultStatus .all
          false false false false).toOption.map (fun r => r.metrics.total_transactions)
        = some 1 ∧
      (get_country_report oneFailedDb c9map 0 0 countryDefaultStatus .all .total
          10).toOption.map (fun r => (r.countries.length, r.summary.total_transactions))
        = some (0, 0) := by
  refine ⟨rfl, rfl, by decide, by decide, by decide⟩

theorem mem_of_getElem_opt {α : Type} {l : List α} {i : Nat} {a : α}
    (h : l[i]? = some a) : a ∈ l := by
  obtain ⟨hi, rfl⟩ := List.getElem?_eq_some.mp h
  exact List.getElem_mem _

theorem trendLoop_getElem_zero (prev : Option Bucket) (bs : List Bucket) :
    (trendLoop prev bs)[0]? = (bs[0]?).map (mkTrendRow prev) := by
  cases bs <;> simp [trendLoop]

theorem trendLoop_getElem_succ (bs : List Bucket) (prev : Option Bucket) (i : Nat) :
    (trendLoop prev bs)[i + 1]?
      = (bs[i]?).bind (fun p => (bs[i + 1]?).map (fun b => mkTrendRow (some p) b)) := by
  induction bs generalizing prev i with
  | nil => simp [trendLoop]
  | cons b bs ih =>
    cases i with
    | zero => cases bs <;> simp [trendLoop]
    | succ j =>
      simp only [trendLoop, List.getElem?_cons_succ]
      exact ih (some b) j

theorem dailyLoop_getElem_succ (bs : List Bucket) (prev : Option Bucket) (i : Nat) :
    (dailyLoop prev bs)[i + 1]?
      = (bs[i]?).bind (fun p => (bs[i + 1]?).map (fun b => mkDailyRow (some p) b)) := by
  induction bs generalizing prev i with
  | nil => simp [dailyLoop]
  | cons b bs ih =>
    cases i with
    | zero => cases bs <;> simp [dailyLoop]
    | succ j =>
      simp only [dailyLoop, List.getElem?_cons_succ]
      exact ih (some b) j

theorem trendLoop_map_date (bs : List Bucket) (prev : Option Bucket) :
    (trendLoop prev bs).map (·.date) = bs.map (·.date) := by
  induction bs generalizing prev with
  | nil => rfl
  | cons b bs ih => simp [trendLoop, mkTrendRow, ih]

theorem dailyLoop_map_date (bs : List Bucket) (prev : Option Bucket) :
    (dailyLoop prev bs).map (·.date) = bs.map (·.date) := by
  induction bs generalizing prev with
  | nil => rfl
  | cons b bs ih => simp [dailyLoop, mkDailyRow, ih]

theorem mem_trendLoop {bs : List Bucket} {prev : Option Bucket} {row : TrendRow}
    (h : row ∈ trendLoop prev bs) : ∃ pb b, b ∈ bs ∧ row = mkTrendRow pb b := by
  induction bs generalizing prev with
  | nil => simp [trendLoop] at h
  | cons b bs ih =>
    rcases List.mem_cons.mp h with h1 | h2
    · exact ⟨prev, b, List.mem_cons_self _ _, h1⟩
    · obtain ⟨pb, b2, hb2, hrow⟩ := ih h2
      exact ⟨pb, b2, List.mem_cons_of_mem _ hb2, hrow⟩

theorem mem_dailyLoop {bs : List Bucket} {prev : Option Bucket} {row : DailyRow}
    (h : row ∈ dailyLoop prev bs) : ∃ pb b, b ∈ bs ∧ row = mkDailyRow pb b := by
  induction bs generalizing prev with
  | nil => simp [dailyLoop] at h
  | cons b bs ih =>
    rcases List.mem_cons.mp h with h1 | h2
    · exact ⟨prev, b, List.mem_cons_self _ _, h1⟩
    · obtain ⟨pb, b2, hb2, hrow⟩ := ih h2
      exact ⟨pb, b2, List.mem_cons_of_mem _ hb2, hrow⟩

theorem bucketsOf_map_date (rows : List Transaction) :
    (bucketsOf rows).map (·.date) = sortedDates rows := by
  rw [bucketsOf, List.map_map]
  exact List.map_id _

theorem mem_sortedDates {rows : List Transaction} {d : Nat} :
    d ∈ sortedDates rows ↔ ∃ t ∈ rows, t.transaction_date = d := by
  simp [sortedDates, List.mem_insertionSort, List.mem_dedup]

theorem sortedDates_sorted (rows : List Transaction) :
    (sortedDates rows).Pairwise (· < ·) := by
  have h1 : (sortedDates rows).Pairwise (· ≤ ·) := by
    unfold sortedDates
    exact List.sorted_insertionSort _ _
  have h2 : (sortedDates rows).Nodup := by
    unfold sortedDates
    exact (List.perm_insertionSort _ _).symm.nodup (List.nodup_dedup _)
  exact (h1.and h2).imp (fun h => lt_of_le_of_ne h.1 h.2)

theorem bucketsOf_fields {rows : List Transaction} {b : Bucket} (hb : b ∈ bucketsOf rows) :
    b.count = (rows.filter (fun t => t.transaction_date == b.date)).length ∧
      b.total = amountSum (rows.filter (fun t => t.transaction_date == b.date)) ∧
      0 < b.count := by
  obtain ⟨d, hd, rfl⟩ := List.mem_map.mp hb
  refine ⟨rfl, rfl, ?_⟩
  obtain ⟨t, ht, htd⟩ := mem_sortedDates.mp hd
  have hmem : t ∈ rows.filter (fun t => t.transaction_date == d) :=
    List.mem_filter.mpr ⟨ht, by simp [htd]⟩
  exact List.length_pos.mpr (List.ne_nil_of_mem hmem)

theorem breakdownPred_eq (s e : Nat) (st : StatusParam) (ty : TypeParam) (t : Transaction) :
    breakdownPred s e st ty t = (matchesFilters s e st ty t && isSuccessful t) := by
  simp only [breakdownPred, matchesFilters]
  generalize dateInRange s e t = a
  generalize isSuccessful t = b
  generalize statusMatches st t.status = c
  generalize typeMatches ty t.type = d
  cases a <;> cases b <;> cases c <;> cases d <;> rfl

theorem trendsPred_eq_of_ne_failed (s e : Nat) {st : StatusParam} (ty : TypeParam)
    (hst : st ≠ .failed) (t : Transaction) :
    trendsPred s e st ty t = (matchesFilters s e st ty t && isSuccessful t) := by
  cases st with
  | all =>
    simp only [trendsPred, matchesFilters, statusMatches]
    generalize dateInRange s e t = a
    generalize isSuccessful t = b
    generalize typeMatches ty t.type = d
    cases a <;> cases b <;> cases d <;> rfl
  | successful =>
    rcases t with ⟨tid, tu, ta, tst, tty, td⟩
    cases tst <;>
      · simp only [trendsPred, matchesFilters, statusMatches, isSuccessful]
        generalize dateInRange s e ⟨tid, tu, ta, _, tty, td⟩ = a
        generalize typeMatches ty tty = d
        cases a <;> cases d <;> rfl
  | failed => exact absurd rfl hst

theorem filter_breakdown_date (db : List Transaction) (s e : Nat) (st : StatusParam)
    (ty : TypeParam) (d : Nat) :
    (db.filter (breakdownPred s e st ty)).filter (fun t => t.transaction_date == d)
      = db.filter (fun t => matchesFilters s e st ty t && isSuccessful t
          && (t.transaction_date == d)) := by
  rw [List.filter_filter]
  refine filter_bool_congr _ _ _ (fun t => ?_)
  rw [breakdownPred_eq]
  generalize matchesFilters s e st ty t = a
  generalize isSuccessful t = b
  generalize (t.transaction_date == d) = c
  cases a <;> cases b <;> cases c <;> rfl

theorem filter_trends_date (db : List Transaction) (s e : Nat) {st : StatusParam}
    (ty : TypeParam) (hst : st ≠ .failed) (d : Nat) :
    (db.filter (trendsPred s e st ty)).filter (fun t => t.transaction_date == d)
      = db.filter (fun t => matchesFilters s e st ty t && isSuccessful t
          && (t.transaction_date == d)) := by
  rw [List.filter_filter]
  refine filter_bool_congr _ _ _ (fun t => ?_)
  rw [trendsPred_eq_of_ne_failed s e ty hst]
  generalize matchesFilters s e st ty t = a
  generalize isSuccessful t = b
  generalize (t.transaction_date == d) = c
  cases a <;> cases b <;> cases c <;> rfl

theorem foldl_min_mem : ∀ (xs : List Rat) (x : Rat), xs.foldl min x ∈ x :: xs
  | [], x => by simp
  | y :: ys, x => by
    have h := foldl_min_mem ys (min x y)
    simp only [List.foldl_cons]
    rcases List.mem_cons.mp h with h1 | h2
    · rcases min_choice x y with hm | hm
      · rw [h1, hm]; exact List.mem_cons_self _ _
      · rw [h1, hm]; exact List.mem_cons_of_mem _ (List.mem_cons_self _ _)
    · exact List.mem_cons_of_mem _ (List.mem_cons_of_mem _ h2)

theorem foldl_min_le (xs : List Rat) : ∀ (x a : Rat), a ∈ x :: xs → xs.foldl min x ≤ a := by
  induction xs with
  | nil =>
    intro x a ha
    simp only [List.mem_singleton] at ha
    simp [ha]
  | cons y ys ih =>
    intro x a ha
    simp only [List.foldl_cons]
    have hhead : ys.foldl min (min x y) ≤ min x y :=
      ih (min x y) (min x y) (List.mem_cons_self _ _)
    rcases List.mem_cons.mp ha with h1 | h2
    · subst h1
      exact le_trans hhead (min_le_left _ _)
    · rcases List.mem_cons.mp h2 with h3 | h4
      · subst h3
        exact le_trans hhead (min_le_right _ _)
      · exact ih (min x y) a (List.mem_cons_of_mem _ h4)

theorem foldl_max_mem : ∀ (xs : List Rat) (x : Rat), xs.foldl max x ∈ x :: xs
  | [], x => by simp
  | y :: ys, x => by
    have h := foldl_max_mem ys (max x y)
    simp only [List.foldl_cons]
    rcases List.mem_cons.mp h with h1 | h2
    · rcases max_choice x y with hm | hm
      · rw [h1, hm]; exact List.mem_cons_self _ _
      · rw [h1, hm]; exact List.mem_cons_of_mem _ (List.mem_cons_self _ _)
    · exact List.mem_cons_of_mem _ (List.mem_cons_of_mem _ h2)

theorem le_foldl_max (xs : List Rat) : ∀ (x a : Rat), a ∈ x :: xs → a ≤ xs.foldl max x := by
  induction xs with
  | nil =>
    intro x a ha
    simp only [List.mem_singleton] at ha
    simp [ha]
  | cons y ys ih =>
    intro x a ha
    simp only [List.foldl_cons]
    have hhead : max x y ≤ ys.foldl max (max x y) :=
      ih (max x y) (max x y) (List.mem_cons_self _ _)
    rcases List.mem_cons.mp ha with h1 | h2
    · subst h1
      exact le_trans (le_max_left _ _) hhead
    · rcases List.mem_cons.mp h2 with h3 | h4
      · subst h3
        exact le_trans (le_max_right _ _) hhead
      · exact ih (max x y) a (List.mem_cons_of_mem _ h4)

theorem listMin_spec {l : List Rat} {v : Rat} (h : listMin l = some v) :
    v ∈ l ∧ ∀ a ∈ l, v ≤ a := by
  cases l with
  | nil => simp [listMin] at h
  | cons x xs =>
    simp only [listMin, Option.some.injEq] at h
    subst h
    exact ⟨foldl_min_mem xs x, fun a ha => foldl_min_le xs x a ha⟩

theorem listMax_spec {l : List Rat} {v : Rat} (h : listMax l = some v) :
    v ∈ l ∧ ∀ a ∈ l, a ≤ v := by
  cases l with
  | nil => simp [listMax] at h
  | cons x xs =>
    simp only [listMax, Option.some.injEq] at h
    subst h
    exact ⟨foldl_max_mem xs x, fun a ha => le_foldl_max xs x a ha⟩

/-- C3 counterexample: with an empty transaction set and all three
inclusion flags set, the optional metrics are absent from the response
(the code adds them only when `total_count > 0`), not present with value 0
as the claim states. -/
theorem c3_counterexample :
    (get_transaction_report [] 0 0 .all .all true true true false).toOption.map
        (fun r => (r.metrics.total_transactions, r.metrics.average_amount,
          r.metrics.minimum_amount, r.metrics.maximum_amount))
      = some (0, none, none, none) := by
  decide

theorem report_optional_fields (db : List Transaction) (s e : Nat) (st : StatusParam)
    (ty : TypeParam) (ia im ix ids : Bool) (h : s ≤ e) :
    ∃ r : Report, get_transaction_report db s e st ty ia im ix ids = .ok r ∧
      r.metrics.average_amount
        = (if ia && decide (0 < (db.filter (matchesFilters s e st ty)).length)
            then some (coalesceAvg
              (((db.filter (matchesFilters s e st ty)).filter isSuccessful).map (·.amount)))
            else none) ∧
      r.metrics.minimum_amount
        = (if im && decide (0 < (db.filter (matchesFilters s e st ty)).length)
            then some ((listMin
              (((db.filter (matchesFilters s e st ty)).filter isSuccessful).map (·.amount))).getD 0)
            else none) ∧
      r.metrics.maximum_amount
        = (if ix && decide (0 < (db.filter (matchesFilters s e st ty)).length)
            then some ((listMax
              (((db.filter (matchesFilters s e st ty)).filter isSuccessful).map (·.amount))).getD 0)
            else none) := by
  unfold get_transaction_report
  rw [if_neg (by omega)]
  exact ⟨_, rfl, rfl, rfl, rfl⟩

/-- C3 (amended): when an optional metric is requested and the filtered set
is non-empty, the field is present, computed over the successful-only
subset, and equal to 0 when that subset is empty; when the whole filtered
set is empty the field is omitted; a valid request never errors. -/
theorem c3_optional_metrics (db : List Transaction) (s e : Nat) (st : StatusParam)
    (ty : TypeParam) (ia im ix ids : Bool) (h : s ≤ e)
    (hpos : 0 < (db.filter (matchesFilters s e st ty)).length) :
    ∀ S : List Transaction, S = (db.filter (matchesFilters s e st ty)).filter isSuccessful →
    ∃ r : Report, get_transaction_report db s e st ty ia im ix ids = .ok r ∧
      (ia = true → ∃ v, r.metrics.average_amount = some v ∧
        ((S = [] ∧ v = 0) ∨ v = (S.map (·.amount)).sum / ((S.map (·.amount)).length : Rat))) ∧
      (im = true → ∃ v, r.metrics.minimum_amount = some v ∧
        ((S = [] ∧ v = 0) ∨
          (v ∈ S.map (·.amount) ∧ ∀ a ∈ S.map (·.amount), v ≤ a))) ∧
      (ix = true → ∃ v, r.metrics.maximum_amount = some v ∧
        ((S = [] ∧ v = 0) ∨
          (v ∈ S.map (·.amount) ∧ ∀ a ∈ S.map (·.amount), a ≤ v))) := by
  intro S hS
  subst hS
  obtain ⟨r, hr, hra, hrm, hrx⟩ :=
    report_optional_fields db s e st ty ia im ix ids h
  refine ⟨r, hr, ?_, ?_, ?_⟩
  · intro hia
    subst hia
    rw [hra, if_pos (by simp [hpos])]
    refine ⟨_, rfl, ?_⟩
    by_cases hS0 : (db.filter (matchesFilters s e st ty)).filter isSuccessful = []
    · exact Or.inl ⟨hS0, by simp [coalesceAvg, hS0]⟩
    · refine Or.inr ?_
      rw [coalesceAvg, if_neg]
      simp only [List.length_eq_zero, List.map_eq_nil_iff]
      exact hS0
  · intro him
    subst him
    rw [hrm, if_pos (by simp [hpos])]
    refine ⟨_, rfl, ?_⟩
    cases hm : listMin (((db.filter (matchesFilters s e st ty)).filter isSuccessful).map (·.amount)) with
    | none =>
      have hnil : ((db.filter (matchesFilters s e st ty)).filter isSuccessful).map (·.amount) = [] := by
        cases hl : ((db.filter (matchesFilters s e st ty)).filter isSuccessful).map (·.amount) with
        | nil => rfl
        | cons x xs => rw [hl] at hm; simp [listMin] at hm
      exact Or.inl ⟨List.map_eq_nil_iff.mp hnil, by simp⟩
    | some v =>
      exact Or.inr (by simpa using listMin_spec hm)
  · intro hix
    subst hix
    rw [hrx, if_pos (by simp [hpos])]
    refine ⟨_, rfl, ?_⟩
    cases hm : listMax (((db.filter (matchesFilters s e st ty)).filter isSuccessful).map (·.amount)) with
    | none =>
      have hnil : ((db.filter (matchesFilters s e st ty)).filter isSuccessful).map (·.amount) = [] := by
        cases hl : ((db.filter (matchesFilters s e st ty)).filter isSuccessful).map (·.amount) with
        | nil => rfl
        | cons x xs => rw [hl] at hm; simp [listMax] at hm
      exact Or.inl ⟨List.map_eq_nil_iff.mp hnil, by simp⟩
    | some v =>
      exact Or.inr (by simpa using listMax_spec hm)

/-- C3 witness: a single failed matching transaction with all flags set:
the fields are present and equal `some 0` because the successful subset is
empty. -/
theorem c3_witness :
    ∃ r : Report, get_transaction_report oneFailedDb 0 0 .all .all true true true false = .ok r ∧
      r.metrics.average_amount = some 0 ∧ r.metrics.minimum_amount = some 0 ∧
      r.metrics.maximum_amount = some 0 := by
  have hS : (oneFailedDb.filter (matchesFilters 0 0 .all .all)).filter isSuccessful = [] := by
    decide
  obtain ⟨r, hr, ha, hmn, hmx⟩ :=
    c3_optional_metrics oneFailedDb 0 0 .all .all true true true false (by omega) (by decide)
      _ rfl
  obtain ⟨va, hva, hda⟩ := ha rfl
  obtain ⟨vm, hvm, hdm⟩ := hmn rfl
  obtain ⟨vx, hvx, hdx⟩ := hmx rfl
  refine ⟨r, hr, ?_, ?_, ?_⟩
  · rcases hda with ⟨_, rfl⟩ | hv
    · exact hva
    · rw [hS] at hv; simp at hv; rw [hva, hv]
  · rcases hdm with ⟨_, rfl⟩ | ⟨hv, _⟩
    · exact hvm
    · rw [hS] at hv; simp at hv
  · rcases hdx with ⟨_, rfl⟩ | ⟨hv, _⟩
    · exact hvx
    · rw [hS] at hv; simp at hv

/-- C2 counterexample: over two successful transactions with day totals
`-10` and `5`, the second bucket is not the first and the previous total is
nonzero, yet the code leaves `amount_change_percent` undefined (the guard is
`previous > 0`, not `previous != 0`). -/
theorem c2_counterexample :
    ((get_daily_trends c2db 0 1 .all .all).map (·.amount_change_percent) = [none, none]) ∧
      ((dtBuckets c2db 0 1 .all .all).map (·.total) = [-10, 5]) ∧ (-10 : Rat) ≠ 0 := by
  have hf : c2db.filter (trendsPred 0 1 .all .all) = c2db := by decide
  have hg0 : c2db.filter (fun t => t.transaction_date == 0)
      = [{ id := 1, user_id := 1, amount := -10, status := .successful, type := .payment,
           transaction_date := 0 }] := by decide
  have hg1 : c2db.filter (fun t => t.transaction_date == 1)
      = [{ id := 2, user_id := 1, amount := 5, status := .successful, type := .payment,
           transaction_date := 1 }] := by decide
  have hd : sortedDates c2db = [0, 1] := by decide
  have hb : dtBuckets c2db 0 1 .all .all
      = [{ date := 0, count := 1, total := -10, avg := -10 },
         { date := 1, count := 1, total := 5, avg := 5 }] := by
    rw [dtBuckets, hf, bucketsOf, hd]
    simp only [List.map_cons, List.map_nil, hg0, hg1]
    norm_num [amountSum, coalesceAvg]
  refine ⟨?_, ?_, by norm_num⟩
  · rw [get_daily_trends, hb]
    norm_num [trendLoop, mkTrendRow]
  · rw [hb]
    norm_num

/-- C2 (amended): in the daily trend sequence, a change field is undefined
exactly when the bucket is the first or the previous bucket's base value is
not positive (in particular whenever it is zero, so no division by zero
occurs); when the previous total is positive the amount change is the
rounded formula, and since bucket counts are always positive the count
change is always defined past the first bucket; the endpoint daily
breakdown's `percent_change` obeys the same guard. -/
theorem c2_percent_change_guard (db : List Transaction) (s e : Nat) (st : StatusParam)
    (ty : TypeParam) (i : Nat) (p c : Bucket)
    (hp : (dtBuckets db s e st ty)[i]? = some p)
    (hc : (dtBuckets db s e st ty)[i + 1]? = some c) :
    (∃ row : TrendRow, (get_daily_trends db s e st ty)[i + 1]? = some row ∧
        (row.amount_change_percent = none ↔ p.total ≤ 0) ∧
        (0 < p.total →
          row.amount_change_percent = some (round2 ((c.total - p.total) / p.total * 100))) ∧
        0 < p.count ∧
        row.count_change_percent
          = some (round2 (((c.count : Rat) - (p.count : Rat)) / (p.count : Rat) * 100))) ∧
    (∀ row0 : TrendRow, (get_daily_trends db s e st ty)[0]? = some row0 →
        row0.amount_change_percent = none ∧ row0.count_change_percent = none) ∧
    (∀ (q d : Bucket) (row : DailyRow),
        (bbBuckets db s e st ty)[i]? = some q →
        (bbBuckets db s e st ty)[i + 1]? = some d →
        (dailyBreakdown db s e st ty)[i + 1]? = some row →
        ((row.percent_change = none ↔ q.total ≤ 0) ∧
          (0 < q.total → row.percent_change = some (round2 ((d.total - q.total) / q.total * 100))))) := by
  have hcountp : 0 < p.count := (bucketsOf_fields (mem_of_getElem_opt hp)).2.2
  refine ⟨⟨mkTrendRow (some p) c, ?_, ?_, ?_, hcountp, ?_⟩, ?_, ?_⟩
  · rw [get_daily_trends, trendLoop_getElem_succ, hp, hc]
    rfl
  · by_cases h : 0 < p.total
    · simp [mkTrendRow, h, not_le]
    · simp [mkTrendRow, h, not_lt.mp h]
  · intro h
    simp [mkTrendRow, h]
  · simp [mkTrendRow, hcountp]
  · intro row0 h0
    rw [get_daily_trends, trendLoop_getElem_zero] at h0
    cases hb0 : (dtBuckets db s e st ty)[0]? with
    | none => rw [hb0] at h0; simp at h0
    | some b0 =>
      rw [hb0] at h0
      have h1 : row0 = mkTrendRow none b0 := by
        simp at h0
        exact h0.symm
      subst h1
      exact ⟨rfl, rfl⟩
  · intro q d row hq hd hrow
    rw [dailyBreakdown, dailyLoop_getElem_succ] at hrow
    rw [show bucketsOf (db.filter (breakdownPred s e st ty)) = bbBuckets db s e st ty from rfl,
      hq, hd] at hrow
    have h1 : row = mkDailyRow (some q) d := by
      simp at hrow
      exact hrow.symm
    subst h1
    constructor
    · by_cases h : 0 < q.total
      · simp [mkDailyRow, h, not_le]
      · simp [mkDailyRow, h, not_lt.mp h]
    · intro h
      simp [mkDailyRow, h]

/-- C2 witness: on two successful transactions with positive day totals 10
then 5, the second trend row exists, its amount change is the rounded
formula and its count change is defined. -/
theorem c2_witness :
    ∃ row : TrendRow, (get_daily_trends c2wdb 0 1 .all .all)[0 + 1]? = some row ∧
      (row.amount_change_percent = none ↔ (Bucket.mk 0 1 10 10).total ≤ 0) ∧
      (0 < (Bucket.mk 0 1 10 10).total →
        row.amount_change_percent = some (round2 (((Bucket.mk 1 1 5 5).total
          - (Bucket.mk 0 1 10 10).total) / (Bucket.mk 0 1 10 10).total * 100))) ∧
      0 < (Bucket.mk 0 1 10 10).count ∧
      row.count_change_percent
        = some (round2 ((((Bucket.mk 1 1 5 5).count : Rat) - ((Bucket.mk 0 1 10 10).count : Rat))
            / ((Bucket.mk 0 1 10 10).count : Rat) * 100)) := by
  have hf : c2wdb.filter (trendsPred 0 1 .all .all) = c2wdb := by decide
  have hg0 : c2wdb.filter (fun t => t.transaction_date == 0)
      = [{ id := 1, user_id := 1, amount := 10, status := .successful, type := .payment,
           transaction_date := 0 }] := by decide
  have hg1 : c2wdb.filter (fun t => t.transaction_date == 1)
      = [{ id := 2, user_id := 1, amount := 5, status := .successful, type := .payment,
           transaction_date := 1 }] := by decide
  have hd : sortedDates c2wdb = [0, 1] := by decide
  have hb : dtBuckets c2wdb 0 1 .all .all
      = [{ date := 0, count := 1, total := 10, avg := 10 },
         { date := 1, count := 1, total := 5, avg := 5 }] := by
    rw [dtBuckets, hf, bucketsOf, hd]
    simp only [List.map_cons, List.map_nil, hg0, hg1]
    norm_num [amountSum, coalesceAvg]
  exact (c2_percent_change_guard c2wdb 0 1 .all .all 0
    (Bucket.mk 0 1 10 10) (Bucket.mk 1 1 5 5) (by rw [hb]; rfl) (by rw [hb]; rfl)).1

/-- C4 counterexample: the daily-trends helper with status filter "failed"
produces a bucket aggregating a failed transaction (count 1, total 5)
although the data contains no successful transaction at all, refuting that
every bucket aggregates only successful rows for every status filter. -/
theorem c4_counterexample :
    ((get_daily_trends c4db 0 0 .failed .all).map
        (fun r => (r.date, r.transaction_count, r.total_amount)) = [(0, 1, 5)]) ∧
      c4db.filter isSuccessful = [] := by
  have hf : c4db.filter (trendsPred 0 0 .failed .all) = c4db := by decide
  have hd : sortedDates c4db = [0] := by decide
  have hg : c4db.filter (fun t => t.transaction_date == 0) = c4db := by decide
  refine ⟨?_, by decide⟩
  rw [get_daily_trends, dtBuckets, hf, bucketsOf, hd]
  simp only [List.map_cons, List.map_nil, hg]
  norm_num [amountSum, coalesceAvg, trendLoop, mkTrendRow, c4db]

/-- C4 (amended): every bucket of the endpoint daily breakdown aggregates
only successful transactions of its calendar date whatever the status
filter, with buckets strictly ascending by date; the daily-trends helper
satisfies the same property only when its status filter is not "failed"
(for "failed" its successful-only conjunct is replaced by the failed
filter). -/
theorem c4_daily_breakdown_successful (db : List Transaction) (s e : Nat)
    (st : StatusParam) (ty : TypeParam) :
    (((dailyBreakdown db s e st ty).map (·.date)).Pairwise (· < ·)) ∧
    (∀ row ∈ dailyBreakdown db s e st ty,
        row.transaction_count = (db.filter (fun t => matchesFilters s e st ty t
            && isSuccessful t && (t.transaction_date == row.date))).length ∧
        row.total_amount = amountSum (db.filter (fun t => matchesFilters s e st ty t
            && isSuccessful t && (t.transaction_date == row.date)))) ∧
    (st ≠ .failed →
      (((get_daily_trends db s e st ty).map (·.date)).Pairwise (· < ·)) ∧
      (∀ row ∈ get_daily_trends db s e st ty,
          row.transaction_count = (db.filter (fun t => matchesFilters s e st ty t
              && isSuccessful t && (t.transaction_date == row.date))).length ∧
          row.total_amount = amountSum (db.filter (fun t => matchesFilters s e st ty t
              && isSuccessful t && (t.transaction_date == row.date))))) := by
  refine ⟨?_, ?_, ?_⟩
  · rw [dailyBreakdown, dailyLoop_map_date, bucketsOf_map_date]
    exact sortedDates_sorted _
  · intro row hrow
    obtain ⟨pb, b, hb, rfl⟩ := mem_dailyLoop hrow
    obtain ⟨hcount, htotal, _⟩ := bucketsOf_fields hb
    have hdate : (mkDailyRow pb b).date = b.date := rfl
    rw [hdate, ← filter_breakdown_date]
    exact ⟨hcount, htotal⟩
  · intro hst
    refine ⟨?_, ?_⟩
    · rw [get_daily_trends, trendLoop_map_date, dtBuckets, bucketsOf_map_date]
      exact sortedDates_sorted _
    · intro row hrow
      obtain ⟨pb, b, hb, rfl⟩ := mem_trendLoop hrow
      obtain ⟨hcount, htotal, _⟩ := bucketsOf_fields hb
      have hdate : (mkTrendRow pb b).date = b.date := rfl
      rw [hdate, ← filter_trends_date db s e ty hst]
      exact ⟨hcount, htotal⟩

/-- C4 witness: on the Scenario A data with status filter "all", both the
breakdown dates and the trend dates are strictly ascending, and the day-5
breakdown row counts exactly the one successful day-5 transaction. -/
theorem c4_witness :
    (((dailyBreakdown dbA 1 31 .all .all).map (·.date)).Pairwise (· < ·)) ∧
      (((get_daily_trends dbA 1 31 .all .all).map (·.date)).Pairwise (· < ·)) := by
  have h := c4_daily_breakdown_successful dbA 1 31 .all .all
  exact ⟨h.1, (h.2.2 (by decide)).1⟩

theorem ne_nil_isEmpty_false {α : Type} {l : List α} (h : l ≠ []) : l.isEmpty = false := by
  cases l with
  | nil => exact absurd rfl h
  | cons a t => rfl

theorem isEmpty_true_eq_nil {α : Type} {l : List α} (h : l.isEmpty = true) : l = [] := by
  cases l with
  | nil => rfl
  | cons a t => simp [List.isEmpty] at h

theorem filter_comm_bool {α : Type} (l : List α) (p q : α → Bool) :
    (l.filter p).filter q = (l.filter q).filter p := by
  rw [List.filter_filter, List.filter_filter]
  exact filter_bool_congr _ _ _ (fun a => Bool.and_comm _ _)

theorem dropUnmapped_withCountry_filter (m : List (Nat × Nat)) (l : List Transaction) :
    dropUnmapped (withCountry m (l.filter (fun t => (dictLookup m t.user_id).isSome)))
      = dropUnmapped (withCountry m l) := by
  induction l with
  | nil => rfl
  | cons t ts ih =>
    simp only [List.filter_cons]
    cases hl : dictLookup m t.user_id with
    | none =>
      simp [withCountry, dropUnmapped, List.filterMap_cons, hl] at ih ⊢
      exact ih
    | some c =>
      simp [withCountry, dropUnmapped, List.filterMap_cons, hl] at ih ⊢
      exact ih

/-- C6: for every country-report request, transactions whose `user_id` has
no entry in the country mapping contribute to nothing: the whole response,
per-country buckets, summary and `overall_stats` included, equals the
response computed after deleting every unmapped-user transaction from the
database. -/
theorem c6_unmapped_dropped (db : List Transaction) (m : List (Nat × Nat)) (s e : Nat)
    (st : StatusParam) (ty : TypeParam) (sb : SortBy) (n : Nat) :
    get_country_report db m s e st ty sb n
      = get_country_report (db.filter (fun t => (dictLookup m t.user_id).isSome)) m s e st ty sb n := by
  unfold get_country_report
  by_cases hse : e < s
  · rw [if_pos hse, if_pos hse]
  rw [if_neg hse, if_neg hse]
  by_cases hm : m.isEmpty
  · rw [if_pos hm, if_pos hm]
  rw [if_neg hm, if_neg hm]
  cases ty with
  | payment => rfl
  | invoice => rfl
  | all =>
    simp only [getTransactionsDF]
    have hdf2 : (db.filter (fun t => (dictLookup m t.user_id).isSome)).filter (dfPred s e st .all)
        = (db.filter (dfPred s e st .all)).filter (fun t => (dictLookup m t.user_id).isSome) :=
      filter_comm_bool db _ _
    rw [hdf2]
    have hdrop : dropUnmapped (withCountry m ((db.filter (dfPred s e st .all)).filter
          (fun t => (dictLookup m t.user_id).isSome)))
        = dropUnmapped (withCountry m (db.filter (dfPred s e st .all))) :=
      dropUnmapped_withCountry_filter m (db.filter (dfPred s e st .all))
    by_cases h1 : (db.filter (dfPred s e st .all)).isEmpty
    · have h1e : db.filter (dfPred s e st .all) = [] := isEmpty_true_eq_nil h1
      rw [if_pos h1, if_pos (by rw [h1e]; rfl)]
    · rw [if_neg h1]
      by_cases h2 : ((db.filter (dfPred s e st .all)).filter
          (fun t => (dictLookup m t.user_id).isSome)).isEmpty
      · rw [if_pos h2]
        have hfe : (db.filter (dfPred s e st .all)).filter
            (fun t => (dictLookup m t.user_id).isSome) = [] := isEmpty_true_eq_nil h2
        have hde : dropUnmapped (withCountry m (db.filter (dfPred s e st .all))) = [] := by
          rw [← hdrop, hfe]
          rfl
        rw [hde]
        rfl
      · rw [if_neg h2, hdrop]

theorem take_ne_nil_of_pos {α : Type} {l : List α} {n : Nat} (hl : l ≠ []) (hn : 0 < n) :
    l.take n ≠ [] := by
  cases l with
  | nil => exact absurd rfl hl
  | cons a t =>
    cases n with
    | zero => omega
    | succ k => simp [List.take]

theorem sortAndFilterCountries_ne_nil {cs : List CountryRow} {sb : SortBy} {n : Nat}
    (hcs : cs ≠ []) (hn : 0 < n) : sortAndFilterCountries cs sb n ≠ [] := by
  unfold sortAndFilterCountries
  refine take_ne_nil_of_pos ?_ hn
  intro hnil
  have hlen := (List.perm_insertionSort (keyGE sb) cs).length_eq
  rw [hnil] at hlen
  cases cs with
  | nil => exact absurd rfl hcs
  | cons a t => simp at hlen

theorem aggregateByCountry_ne_nil {rows : List (Transaction × Nat)} (h : rows ≠ []) :
    aggregateByCountry rows ≠ [] := by
  unfold aggregateByCountry
  suffices hc : countryNames rows ≠ [] by
    cases hcc : countryNames rows with
    | nil => exact absurd hcc hc
    | cons a t => simp [hcc]
  unfold countryNames
  cases rows with
  | nil => exact absurd rfl h
  | cons p ps =>
    have h1 : p.2 ∈ ((p :: ps).map (·.2)) := by simp
    have h2 : p.2 ∈ ((p :: ps).map (·.2)).dedup := List.mem_dedup.mpr h1
    exact List.ne_nil_of_mem ((List.mem_insertionSort _).mpr h2)

theorem calculateCountrySummary_full {cs : List CountryRow}
    (rows : List (Transaction × Nat)) (hcs : cs ≠ []) :
    calculateCountrySummary cs rows =
      { total_countries := cs.length,
        total_transactions := (cs.map (·.transaction_count)).sum,
        total_amount := round2 ((cs.map (·.total_amount)).sum),
        average_per_country := some (round2 (((cs.map (·.total_amount)).sum) / (cs.length : Rat))),
        top_performer := some (cs.head?.map (·.country)),
        overall_stats := some
          { total_countries_found := ((rows.map (·.2)).dedup).length,
            total_transactions_all := rows.length,
            total_amount_all := amountSum (rows.map (·.1)),
            average_transaction_all := coalesceAvg ((rows.map (·.1)).map (·.amount)) } } := by
  unfold calculateCountrySummary
  rw [if_neg (by simp [ne_nil_isEmpty_false hcs])]

/-- C10: in a country report that reaches the aggregation path, the summary
fields `total_countries`, `total_transactions`, `total_amount`,
`average_per_country` and `top_performer` are computed over only the
top-N `countries` list returned after sorting and limiting, while the
nested `overall_stats` figures cover the full resolvable transaction set. -/
theorem c10_summary_topn (db : List Transaction) (m : List (Nat × Nat)) (s e : Nat)
    (st : StatusParam) (sb : SortBy) (n : Nat) (h : s ≤ e) (hm : m.isEmpty = false)
    (hn : 0 < n) :
    ∀ D : List (Transaction × Nat),
      D = dropUnmapped (withCountry m (db.filter (dfPred s e st .all))) → D ≠ [] →
    ∃ r : CountryReport, get_country_report db m s e st .all sb n = .ok r ∧
      r.countries = sortAndFilterCountries (aggregateByCountry D) sb n ∧
      r.countries ≠ [] ∧
      r.summary.total_countries = r.countries.length ∧
      r.summary.total_transactions = (r.countries.map (·.transaction_count)).sum ∧
      r.summary.total_amount = round2 ((r.countries.map (·.total_amount)).sum) ∧
      r.summary.average_per_country
        = some (round2 (((r.countries.map (·.total_amount)).sum) / (r.countries.length : Rat))) ∧
      r.summary.top_performer = some (r.countries.head?.map (·.country)) ∧
      r.summary.overall_stats = some
        { total_countries_found := ((D.map (·.2)).dedup).length,
          total_transactions_all := D.length,
          total_amount_all := amountSum (D.map (·.1)),
          average_transaction_all := coalesceAvg ((D.map (·.1)).map (·.amount)) } := by
  intro D hD hDne
  have hcne : sortAndFilterCountries (aggregateByCountry D) sb n ≠ [] :=
    sortAndFilterCountries_ne_nil (aggregateByCountry_ne_nil hDne) hn
  unfold get_country_report
  rw [if_neg (by omega), if_neg (by simp [hm])]
  simp only [getTransactionsDF]
  have hdfne : (db.filter (dfPred s e st .all)).isEmpty = false := by
    cases hdfe : db.filter (dfPred s e st .all) with
    | nil =>
      exfalso
      apply hDne
      rw [hD, hdfe]
      rfl
    | cons a l => rfl
  rw [if_neg (by simp [hdfne])]
  have hdropne : (dropUnmapped (withCountry m (db.filter (dfPred s e st .all)))).isEmpty
      = false := ne_nil_isEmpty_false (hD ▸ hDne)
  rw [if_neg (by simp [hdropne])]
  rw [← hD]
  refine ⟨_, rfl, rfl, hcne, ?_, ?_, ?_, ?_, ?_, ?_⟩ <;>
    rw [calculateCountrySummary_full D hcne]
/-- C7: ranking a list of country entries by the chosen key with limit `n`
returns at most `n` entries, adjacent entries are in descending key order,
entries of equal key keep their input order (stable descending sort), and
the output is the first `n` entries of that stable sort. -/
theorem c7_ranking (countries : List CountryRow) (sb : SortBy) (n : Nat) :
    (sortAndFilterCountries countries sb n).length ≤ n ∧
    (∀ (i : Nat) (a b : CountryRow),
        (sortAndFilterCountries countries sb n)[i]? = some a →
        (sortAndFilterCountries countries sb n)[i + 1]? = some b →
        sortKey sb b ≤ sortKey sb a) ∧
    (∀ v : Rat,
        (List.insertionSort (keyGE sb) countries).filter (fun c => sortKey sb c == v)
          = countries.filter (fun c => sortKey sb c == v)) ∧
    sortAndFilterCountries countries sb n
      = (List.insertionSort (keyGE sb) countries).take n := by
  refine ⟨?_, ?_, ?_, rfl⟩
  · rw [sortAndFilterCountries, List.length_take]
    exact min_le_left _ _
  · intro i a b ha hb
    have hpw : (sortAndFilterCountries countries sb n).Pairwise (keyGE sb) :=
      List.Pairwise.sublist (List.take_sublist _ _)
        (List.sorted_insertionSort (keyGE sb) countries)
    obtain ⟨hi, hga⟩ := List.getElem?_eq_some.mp ha
    obtain ⟨hj, hgb⟩ := List.getElem?_eq_some.mp hb
    have := (List.pairwise_iff_get.mp hpw) ⟨i, hi⟩ ⟨i + 1, hj⟩ (by simp)
    simpa [List.get_eq_getElem, hga, hgb] using this
  · intro v
    have hmemkey : ∀ c ∈ countries.filter (fun c => sortKey sb c == v), sortKey sb c = v := by
      intro c hc
      simpa using List.of_mem_filter hc
    have hpw : (countries.filter (fun c => sortKey sb c == v)).Pairwise (keyGE sb) := by
      rw [List.pairwise_iff_get]
      intro i j _
      show sortKey sb _ ≤ sortKey sb _
      rw [hmemkey _ (List.get_mem _ _ _), hmemkey _ (List.get_mem _ _ _)]
    have hsub : List.Sublist (countries.filter (fun c => sortKey sb c == v))
        (List.insertionSort (keyGE sb) countries) :=
      List.sublist_insertionSort hpw (List.filter_sublist countries)
    have hself : (countries.filter (fun c => sortKey sb c == v)).filter
        (fun c => sortKey sb c == v) = countries.filter (fun c => sortKey sb c == v) := by
      rw [List.filter_filter]
      exact filter_bool_congr _ _ _ (fun a => Bool.and_self _)
    have hsub2 : List.Sublist (countries.filter (fun c => sortKey sb c == v))
        ((List.insertionSort (keyGE sb) countries).filter (fun c => sortKey sb c == v)) := by
      have h2 := hsub.filter (fun c => sortKey sb c == v)
      rwa [hself] at h2
    have hperm : ((List.insertionSort (keyGE sb) countries).filter
          (fun c => sortKey sb c == v)).Perm (countries.filter (fun c => sortKey sb c == v)) :=
      (List.perm_insertionSort (keyGE sb) countries).filter _
    exact (hsub2.eq_of_length hperm.length_eq.symm).symm

/-- C7 witness: Scenario D; totals 300, 500, 500 ranked by total with limit
2 give at most two entries, and the two entries with total 500 stay in
input order. -/
theorem c7_witness :
    (sortAndFilterCountries c7rows .total 2).length ≤ 2 ∧
      ((List.insertionSort (keyGE .total) c7rows).filter
          (fun c => sortKey .total c == (500 : Rat))
        = c7rows.filter (fun c => sortKey .total c == (500 : Rat))) :=
  ⟨(c7_ranking c7rows .total 2).1, (c7_ranking c7rows .total 2).2.2.1 500⟩


/-- C10 witness: two mapped users in two countries and one unmapped user,
`top_n = 1`: the summary covers only the single returned country while
`overall_stats` covers both resolvable transactions. -/
theorem c10_witness :
    ∃ r : CountryReport, get_country_report c10db c10map 0 0 .successful .all .total 1 = .ok r ∧
      r.countries = sortAndFilterCountries
        (aggregateByCountry (dropUnmapped (withCountry c10map
          (c10db.filter (dfPred 0 0 .successful .all))))) .total 1 ∧
      r.countries ≠ [] ∧
      r.summary.total_countries = r.countries.length ∧
      r.summary.total_transactions = (r.countries.map (·.transaction_count)).sum ∧
      r.summary.total_amount = round2 ((r.countries.map (·.total_amount)).sum) ∧
      r.summary.average_per_country
        = some (round2 (((r.countries.map (·.total_amount)).sum) / (r.countries.length : Rat))) ∧
      r.summary.top_performer = some (r.countries.head?.map (·.country)) ∧
      r.summary.overall_stats = some
        { total_countries_found := (((dropUnmapped (withCountry c10map
              (c10db.filter (dfPred 0 0 .successful .all)))).map (·.2)).dedup).length,
          total_transactions_all := (dropUnmapped (withCountry c10map
              (c10db.filter (dfPred 0 0 .successful .all)))).length,
          total_amount_all := amountSum ((dropUnmapped (withCountry c10map
              (c10db.filter (dfPred 0 0 .successful .all)))).map (·.1)),
          average_transaction_all := coalesceAvg (((dropUnmapped (withCountry c10map
              (c10db.filter (dfPred 0 0 .successful .all)))).map (·.1)).map (·.amount)) } :=
  c10_summary_topn c10db c10map 0 0 .successful .total 1 (by omega) (by decide) (by omega)
    _ rfl (by decide)

end TxA
